import Mathlib

/-!
Shallow embedding of the Yescoin bot core (src/bot/core/tapper.py and
src/bot/config/config.py) and proofs about its game-loop orchestrator,
request executor and referral-id selection.

Remote responses and random draws are supplied by an explicit `Env`
oracle; every HTTP call, sleep and upgrade attempt performed by one
iteration of `BaseBot.process_bot_logic`'s main loop is recorded in a
trace of `Action`s.
-/

set_option linter.unusedVariables false

namespace Yescoin

/-! ### Request Executor: `BaseBot.make_request` (tapper.py lines 125-159) -/

/-- One attempt's outcome: a network-level exception, or an HTTP response
with a status code and (for status 200) a parsed body. -/
inductive Outcome (α : Type) where
  | exn : Outcome α
  | resp (status : Nat) (body : α) : Outcome α
deriving DecidableEq

/-- Observable events of `make_request`: an HTTP attempt (with its
zero-based index) or a backoff sleep in seconds. -/
inductive ReqEvent where
  | call (attempt : Nat)
  | sleep (secs : Nat)
deriving DecidableEq

/-- `max_retries = 3` in `make_request`. -/
def maxRetries : Nat := 3

/-- `base_delay = 5` in `make_request`. -/
def baseDelay : Nat := 5

/-- The `for attempt in range(max_retries)` loop of `make_request`:
status 200 returns the parsed body; any other status (429 included)
returns `none` at once; an exception sleeps `base_delay * (attempt + 1)`
and retries while `attempt < max_retries - 1`, else returns `none`.
The fuel argument counts the loop iterations that remain. -/
def make_request_loop {α : Type} (outcomes : Nat → Outcome α) :
    Nat → Nat → Option α × List ReqEvent
  | 0, _ => (none, [])
  | fuel + 1, attempt =>
    match outcomes attempt with
    | Outcome.resp status body =>
      if status = 200 then (some body, [ReqEvent.call attempt])
      else if status = 429 then (none, [ReqEvent.call attempt])
      else (none, [ReqEvent.call attempt])
    | Outcome.exn =>
      if attempt < maxRetries - 1 then
        let r := make_request_loop outcomes fuel (attempt + 1)
        (r.1, ReqEvent.call attempt :: ReqEvent.sleep (baseDelay * (attempt + 1)) :: r.2)
      else
        (none, [ReqEvent.call attempt])

/-- `BaseBot.make_request`: raises `InvalidSession` (modelled as
`Except.error ()`) when `self._http_client` is not initialized, else runs
the bounded retry loop and never raises. -/
def make_request {α : Type} (clientInitialized : Bool) (outcomes : Nat → Outcome α) :
    Except Unit (Option α × List ReqEvent) :=
  if clientInitialized then Except.ok (make_request_loop outcomes maxRetries 0)
  else Except.error ()

/-- Counts the HTTP attempts in a `make_request` event trace. -/
def callCount (evs : List ReqEvent) : Nat :=
  evs.countP fun e =>
    match e with
    | ReqEvent.call _ => true
    | ReqEvent.sleep _ => false

/-! ### `BaseBot.get_ref_id` (tapper.py lines 55-59, config.py line 13) -/

/-- `BaseBot.get_ref_id`: on the first call (`self._current_ref_id is
None`) draw `randint(1, 100)` and cache `settings.REF_ID` when the draw
is at most 70, else the hard-coded string; afterwards return the cached
value. Returns the result together with the new cache. -/
def get_ref_id (refId : String) (cachedRefId : Option String) (draw : Nat) :
    String × Option String :=
  match cachedRefId with
  | some v => (v, some v)
  | none =>
    let v := if draw ≤ 70 then refId else "dIk9eL"
    (v, some v)

/-! ### Data model for the Game-Loop Orchestrator (`BaseBot.process_bot_logic`) -/

/-- Process-wide tunables (config.py, `Settings`), at their defaults in
`cfgEx` below. -/
structure Cfg where
  minAvailableEnergy : Nat
  sleepByMinEnergyLo : Nat
  sleepByMinEnergyHi : Nat
  randomTapsLo : Nat
  randomTapsHi : Nat
  sleepBetweenTapLo : Nat
  sleepBetweenTapHi : Nat
  maxTapLevel : Nat
  maxEnergyLevel : Nat
  maxChargeLevel : Nat
deriving DecidableEq

/-- The fields of `get_game_data`'s payload read by the orchestrator
(tapper.py lines 289-292). -/
structure GameData where
  coinPoolLeftCount : Nat
  singleCoinValue : Nat
  coinPoolTotalCount : Nat
  coinPoolRecoverySpeed : Nat
deriving DecidableEq

/-- The fields of `get_boosts_info`'s payload read by the orchestrator
(tapper.py lines 306-308 and 373-379). -/
structure BoostsInfo where
  specialBoxLeftRecoveryCount : Nat
  coinPoolLeftRecoveryCount : Nat
  currentAmount : Nat
  singleCoinLevel : Nat
  coinPoolTotalLevel : Nat
  coinPoolRecoveryLevel : Nat
  singleCoinUpgradeCost : Nat
  coinPoolTotalUpgradeCost : Nat
  coinPoolRecoveryUpgradeCost : Nat
deriving DecidableEq

/-- The fields of `get_profile_data`'s payload read by the orchestrator. -/
structure ProfileData where
  currentAmount : Nat
  totalAmount : Nat
deriving DecidableEq

/-- The `data` object of a collectCoin / collectSpecialBoxCoin response.
`currentAmount`/`totalAmount` are `Option` because the turbo endpoint may
omit them (`data.get(...)` in `send_taps_with_turbo`); the regular
endpoint indexes them directly, so their absence there raises a KeyError
inside `send_taps`'s `try`. -/
structure TapRespData where
  collectStatus : Bool
  collectAmount : Nat
  currentAmount : Option Nat
  totalAmount : Option Nat
deriving DecidableEq

/-- The Python value bound to `tap_data` in `process_bot_logic`:
`None`, the empty dict `{}`, or a populated payload dict. -/
inductive TapData where
  | null : TapData
  | emptyDict : TapData
  | payload (collectAmount : Nat) (currentAmount : Option Nat) (totalAmount : Option Nat) : TapData
deriving DecidableEq

/-- Whether a `tap_data` value is Python `None` (`tap_data is None`). -/
def TapData.isNull : TapData → Bool
  | TapData.null => true
  | _ => false

/-- `BaseBot.send_taps` (tapper.py lines 577-596): a missing response or
falsy `data` yields `(False, {})`; otherwise the dict literal indexes
`data['currentAmount']` and `data['totalAmount']` directly, so a missing
key raises and the handler also yields `(False, {})`. It never yields
`None` for `tap_data`. -/
def send_taps (resp : Option TapRespData) : Bool × TapData :=
  match resp with
  | none => (false, TapData.emptyDict)
  | some d =>
    match d.currentAmount, d.totalAmount with
    | some ca, some ta =>
      (d.collectStatus, TapData.payload d.collectAmount (some ca) (some ta))
    | _, _ => (false, TapData.emptyDict)

/-- `BaseBot.send_taps_with_turbo` (tapper.py lines 598-623): a failed
special-box lookup raises inside the `try` and yields `(False, {})`;
a missing response or falsy `data` yields `(False, {})`; otherwise the
payload uses `data.get` for the two amount fields. -/
def send_taps_with_turbo (boxInfoOk : Bool) (resp : Option TapRespData) : Bool × TapData :=
  if boxInfoOk then
    match resp with
    | none => (false, TapData.emptyDict)
    | some d => (d.collectStatus, TapData.payload d.collectAmount d.currentAmount d.totalAmount)
  else (false, TapData.emptyDict)

/-- The mutable locals of `process_bot_logic` that survive an iteration:
`access_token_created_time`, `active_turbo`, `balance`, plus the
session-level first-run flag set once by `initialize_session`. -/
structure OrchState where
  tokenTime : Nat
  activeTurbo : Bool
  isFirstRun : Bool
  balance : Nat
deriving DecidableEq

/-- Calls and sleeps one loop iteration of `process_bot_logic` performs,
in order. The recurring-sweep helpers are opaque markers; sleeps carry
their duration in seconds and are split by site: `sleepCoarse` is the
`SLEEP_BY_MIN_ENERGY` backoff, `sleepSettle` the fixed 1s/3s delays,
`sleepBetweenTap` the `SLEEP_BETWEEN_TAP` cadence. -/
inductive Action where
  | authenticate
  | claimReferral
  | sweepOfflineBonus
  | sweepSignin
  | sweepSquad
  | fetchProfile
  | activityCheck
  | sweepTasks
  | sweepMissions
  | fetchGame
  | fetchBoosts
  | activateTurbo
  | tap (count : Nat)
  | turboTap
  | levelUp (boostId : Nat)
  | sleepCoarse (secs : Nat)
  | sleepSettle (secs : Nat)
  | sleepBetweenTap (secs : Nat)
deriving DecidableEq

/-- The remote system and random number generator as one iteration of the
loop observes them: each field is the response to (or draw for) the
corresponding call site, in program order. -/
structure Env where
  now : Nat
  referralOk : Bool
  authProfile : Option ProfileData
  gameData : Option GameData
  boostsInfo : Option BoostsInfo
  turboActivateOk : Bool
  specialBoxOk : Bool
  turboTapResp : Option TapRespData
  tapDraw : Nat
  tapResp : Option TapRespData
  tapProfile : Option ProfileData
  gameData2 : Option GameData
  levelUpOk : Nat → Bool
  coarseDraw : Nat
  betweenTapDraw : Nat

/-! ### The Game-Loop Orchestrator: one iteration of `process_bot_logic`'s
`while True` body (tapper.py lines 199-454). -/

/-- The hourly auth gate (tapper.py lines 201-275): state after it. The
gate fires when `time() - access_token_created_time >= 3600`; it logs in
(resetting the token timestamp), optionally claims the referral gift box,
runs the recurring sweep and refreshes the profile-derived balance. -/
def authGateState (env : Env) (st : OrchState) : OrchState :=
  if st.tokenTime + 3600 ≤ env.now then
    let st1 : OrchState := { st with tokenTime := env.now }
    match env.authProfile with
    | none => st1
    | some p => { st1 with balance := p.currentAmount }
  else st

/-- The calls the auth gate issues, in order (tapper.py lines 201-275).
The referral claim (lines 206-228) runs precisely when
`self._is_first_run` is truthy; its own failure is swallowed by the inner
`try`/`except`. -/
def authGateActs (env : Env) (st : OrchState) : List Action :=
  if st.tokenTime + 3600 ≤ env.now then
    (Action.authenticate ::
      (if st.isFirstRun then [Action.claimReferral] else []) ++
      [Action.sweepOfflineBonus, Action.sweepSignin, Action.sweepSquad, Action.fetchProfile]) ++
    (match env.authProfile with
     | none => []
     | some _ => [Action.activityCheck, Action.sweepTasks, Action.sweepMissions])
  else []

/-- Whether the iteration proceeds past the auth gate: a falsy profile
fetch inside the gate hits `continue` (tapper.py lines 236-237). -/
def authGateProceeds (env : Env) (st : OrchState) : Bool :=
  if st.tokenTime + 3600 ≤ env.now then
    match env.authProfile with
    | none => false
    | some _ => true
  else true

/-- Turbo activation (tapper.py lines 311-316): when
`turbo_boost_count > 0 and not active_turbo`, call `apply_turbo_boost`;
on success sleep 1s and set the flag. -/
def turboActivationState (env : Env) (st : OrchState) (bi : BoostsInfo) : OrchState :=
  if bi.specialBoxLeftRecoveryCount > 0 ∧ st.activeTurbo = false then
    if env.turboActivateOk then { st with activeTurbo := true } else st
  else st

/-- The calls of the turbo-activation step (tapper.py lines 311-316). -/
def turboActivationActs (env : Env) (st : OrchState) (bi : BoostsInfo) : List Action :=
  if bi.specialBoxLeftRecoveryCount > 0 ∧ st.activeTurbo = false then
    if env.turboActivateOk then [Action.activateTurbo, Action.sleepSettle 1]
    else [Action.activateTurbo]
  else []

/-- Choice of tap call (tapper.py lines 318-324): a pending turbo uses
`send_taps_with_turbo`, otherwise a regular `send_taps` burst of
`min(available_energy, randint(RANDOM_TAPS_COUNT))`. Yields
`(status, tap_data, calls)`. -/
def tapOutcome (env : Env) (st1 : OrchState) (gd : GameData) : Bool × TapData × List Action :=
  if st1.activeTurbo = true then
    ((send_taps_with_turbo env.specialBoxOk env.turboTapResp).1,
     (send_taps_with_turbo env.specialBoxOk env.turboTapResp).2,
     [Action.turboTap])
  else
    ((send_taps env.tapResp).1, (send_taps env.tapResp).2,
     [Action.tap (min gd.coinPoolLeftCount env.tapDraw)])

/-- State changes of the tap aftermath (tapper.py lines 326-369): a
successful tap updates `balance` from the payload's `current_amount`,
else from a fresh profile fetch; every other case leaves state as is.
On `tap_data = {}` with truthy status (unreachable from the two senders)
the balance stays put because the KeyError at
`tap_data['collect_amount']` fires before the `balance = new_balance`
assignment. -/
def tapAftermathState (env : Env) (st2 : OrchState) (status : Bool) (tapData : TapData) :
    OrchState :=
  match tapData with
  | TapData.null => st2
  | TapData.emptyDict => st2
  | TapData.payload _ currentAmount _ =>
    if status = true then
      match currentAmount with
      | some newBalance => { st2 with balance := newBalance }
      | none =>
        match env.tapProfile with
        | none => st2
        | some p => { st2 with balance := p.currentAmount }
    else st2

/-- Calls and sleeps of the tap aftermath (tapper.py lines 326-369):
`tap_data is None` sleeps the coarse backoff; a successful tap refetches
profile when the payload lacks `current_amount`, refetches game state,
and sleeps the between-tap cadence; a failed tap falls through with
nothing. The `{}`-with-truthy-status case mirrors Python's path into the
profile refetch followed by the KeyError whose handler sleeps 3s. -/
def tapAftermathActs (env : Env) (status : Bool) (tapData : TapData) : List Action :=
  match tapData with
  | TapData.null => [Action.sleepCoarse env.coarseDraw]
  | TapData.emptyDict =>
    if status = true then
      match env.tapProfile with
      | none => [Action.fetchProfile]
      | some _ => [Action.fetchProfile, Action.sleepSettle 3]
    else []
  | TapData.payload _ currentAmount _ =>
    if status = true then
      match currentAmount with
      | some _ =>
        match env.gameData2 with
        | none => [Action.fetchGame]
        | some _ => [Action.fetchGame, Action.sleepBetweenTap env.betweenTapDraw]
      | none =>
        match env.tapProfile with
        | none => [Action.fetchProfile]
        | some _ =>
          match env.gameData2 with
          | none => [Action.fetchProfile, Action.fetchGame]
          | some _ =>
            [Action.fetchProfile, Action.fetchGame, Action.sleepBetweenTap env.betweenTapDraw]
    else []

/-- The whole `available_energy > min_energy` branch (tapper.py lines
310-369). A truthy turbo status clears `active_turbo` (line 321) before
the aftermath. -/
def tapBranch (env : Env) (st : OrchState) (gd : GameData) (bi : BoostsInfo) :
    OrchState × List Action :=
  let st1 := turboActivationState env st bi
  let r := tapOutcome env st1 gd
  let st2 := if st1.activeTurbo = true ∧ r.1 = true then { st1 with activeTurbo := false } else st1
  (tapAftermathState env st2 r.1 r.2.1,
   turboActivationActs env st bi ++ r.2.2 ++ tapAftermathActs env r.1 r.2.1)

/-- The zero-energy upgrade pass (tapper.py lines 371-418): three fixed
checks — tap (`boost_id=1`), energy capacity (`boost_id=3`), recovery
(`boost_id=2`) — each gated on the balance and the next level against the
configured maximum, all read from the one `boosts_info` snapshot and the
`balance` local taken before the pass. Yields whether any `level_up`
succeeded and the calls made. -/
def upgradePass (cfg : Cfg) (bi : BoostsInfo) (balance : Nat) (levelUpOk : Nat → Bool) :
    Bool × List Action :=
  let r1 : Bool × List Action :=
    if balance ≥ bi.singleCoinUpgradeCost ∧ bi.singleCoinLevel + 1 ≤ cfg.maxTapLevel then
      (levelUpOk 1, [Action.levelUp 1])
    else (false, [])
  let r2 : Bool × List Action :=
    if balance ≥ bi.coinPoolTotalUpgradeCost ∧ bi.coinPoolTotalLevel + 1 ≤ cfg.maxEnergyLevel then
      (levelUpOk 3, [Action.levelUp 3])
    else (false, [])
  let r3 : Bool × List Action :=
    if balance ≥ bi.coinPoolRecoveryUpgradeCost ∧
        bi.coinPoolRecoveryLevel + 1 ≤ cfg.maxChargeLevel then
      (levelUpOk 2, [Action.levelUp 2])
    else (false, [])
  (r1.1 || r2.1 || r3.1, r1.2 ++ r2.2 ++ r3.2)

/-- The `available_energy == 0` branch (tapper.py lines 371-437): run the
upgrade pass; if anything upgraded, sleep 1s and loop at once, otherwise
sleep the coarse backoff. -/
def zeroEnergyBranch (cfg : Cfg) (env : Env) (st : OrchState) (bi : BoostsInfo) :
    OrchState × List Action :=
  let r := upgradePass cfg bi st.balance env.levelUpOk
  if r.1 = true then (st, r.2 ++ [Action.sleepSettle 1])
  else (st, r.2 ++ [Action.sleepCoarse env.coarseDraw])

/-- One iteration of `process_bot_logic`'s main loop (tapper.py lines
199-454): auth gate, game-state poll (falsy response sleeps the coarse
backoff and loops), boost poll (same), then the tap branch when
`available_energy > min_energy`, the upgrade branch when
`available_energy == 0`, and — crucially — nothing at all in between.
`min_energy = int(total_energy * MIN_AVAILABLE_ENERGY / 100)` and
`balance = boosts_info.get('currentAmount', 0)` before branching. -/
def cycle (cfg : Cfg) (env : Env) (st : OrchState) : OrchState × List Action :=
  let st1 := authGateState env st
  let authActs := authGateActs env st
  if authGateProceeds env st = true then
    match env.gameData with
    | none => (st1, authActs ++ [Action.fetchGame, Action.sleepCoarse env.coarseDraw])
    | some gd =>
      let minEnergy := gd.coinPoolTotalCount * cfg.minAvailableEnergy / 100
      match env.boostsInfo with
      | none =>
        (st1, authActs ++ [Action.fetchGame, Action.fetchBoosts,
          Action.sleepCoarse env.coarseDraw])
      | some bi =>
        let st2 := { st1 with balance := bi.currentAmount }
        if gd.coinPoolLeftCount > minEnergy then
          let r := tapBranch env st2 gd bi
          (r.1, authActs ++ [Action.fetchGame, Action.fetchBoosts] ++ r.2)
        else if gd.coinPoolLeftCount = 0 then
          let r := zeroEnergyBranch cfg env st2 bi
          (r.1, authActs ++ [Action.fetchGame, Action.fetchBoosts] ++ r.2)
        else
          (st2, authActs ++ [Action.fetchGame, Action.fetchBoosts])
  else
    (st1, authActs)

/-! ### Trace classifiers (Boolean, for decidable statements) -/

/-- Whether an action is a coarse `SLEEP_BY_MIN_ENERGY` backoff. -/
def isCoarseSleep : Action → Bool
  | Action.sleepCoarse _ => true
  | _ => false

/-- Whether an action is a tap call (regular or turbo). -/
def isTapCall : Action → Bool
  | Action.tap _ => true
  | Action.turboTap => true
  | _ => false

/-- Whether an action is the login call. -/
def isAuthCall : Action → Bool
  | Action.authenticate => true
  | _ => false

/-- Whether an action is a profile fetch. -/
def isProfileFetch : Action → Bool
  | Action.fetchProfile => true
  | _ => false

/-- Whether an action is a boost-state fetch. -/
def isBoostFetch : Action → Bool
  | Action.fetchBoosts => true
  | _ => false

/-- Whether an action is a `levelUp` call. -/
def isLevelUpCall : Action → Bool
  | Action.levelUp _ => true
  | _ => false

/-- Whether an action is a turbo-boost activation call. -/
def isTurboActivation : Action → Bool
  | Action.activateTurbo => true
  | _ => false

/-- Whether an action is a referral gift-box claim. -/
def isReferralClaim : Action → Bool
  | Action.claimReferral => true
  | _ => false

/-! ### Concrete exemplars (config defaults and small remote states) -/

/-- The `Settings` defaults of config.py. -/
def cfgEx : Cfg :=
  { minAvailableEnergy := 10
    sleepByMinEnergyLo := 1800
    sleepByMinEnergyHi := 10800
    randomTapsLo := 35
    randomTapsHi := 100
    sleepBetweenTapLo := 3
    sleepBetweenTapHi := 8
    maxTapLevel := 10
    maxEnergyLevel := 10
    maxChargeLevel := 10 }

/-- The locals of `process_bot_logic` at entry (lines 195-197), for a
non-first-run session. -/
def st0 : OrchState := { tokenTime := 0, activeTurbo := false, isFirstRun := false, balance := 0 }

/-- A baseline environment: fresh token epoch, every response absent. -/
def envBase : Env :=
  { now := 0
    referralOk := true
    authProfile := none
    gameData := none
    boostsInfo := none
    turboActivateOk := false
    specialBoxOk := false
    turboTapResp := none
    tapDraw := 35
    tapResp := none
    tapProfile := none
    gameData2 := none
    levelUpOk := fun _ => true
    coarseDraw := 1800
    betweenTapDraw := 3 }

/-- A boost snapshot with no turbo charges and unaffordable upgrades. -/
def biBase : BoostsInfo :=
  { specialBoxLeftRecoveryCount := 0
    coinPoolLeftRecoveryCount := 0
    currentAmount := 0
    singleCoinLevel := 1
    coinPoolTotalLevel := 1
    coinPoolRecoveryLevel := 1
    singleCoinUpgradeCost := 100000
    coinPoolTotalUpgradeCost := 100000
    coinPoolRecoveryUpgradeCost := 100000 }

/-- A game snapshot with empty energy pool, 1000 capacity. -/
def gdBase : GameData :=
  { coinPoolLeftCount := 0
    singleCoinValue := 1
    coinPoolTotalCount := 1000
    coinPoolRecoverySpeed := 1 }

/-! ### C8: the Request Executor's retry and error contract -/

/-- C8: `make_request` retries at most 3 attempts, sleeping `5s * k`
after the k-th failed attempt, and only an exception triggers a retry;
HTTP 200 returns the parsed body, HTTP 429 and every other non-200
status return `none` at once with no retry; with an uninitialized
transport it raises the session-fatal error, and otherwise it never
raises. -/
theorem c8_request_executor {α : Type} (outcomes : Nat → Outcome α) :
    make_request false outcomes = Except.error ()
    ∧ make_request true outcomes = Except.ok (make_request_loop outcomes maxRetries 0)
    ∧ callCount (make_request_loop outcomes maxRetries 0).2 ≤ 3
    ∧ (∀ b, outcomes 0 = Outcome.resp 200 b →
        make_request_loop outcomes maxRetries 0 = (some b, [ReqEvent.call 0]))
    ∧ (∀ b, outcomes 0 = Outcome.resp 429 b →
        make_request_loop outcomes maxRetries 0 = (none, [ReqEvent.call 0]))
    ∧ (∀ s b, outcomes 0 = Outcome.resp s b → s ≠ 200 →
        make_request_loop outcomes maxRetries 0 = (none, [ReqEvent.call 0]))
    ∧ (outcomes 0 = Outcome.exn → outcomes 1 = Outcome.exn → outcomes 2 = Outcome.exn →
        make_request_loop outcomes maxRetries 0 =
          (none, [ReqEvent.call 0, ReqEvent.sleep 5, ReqEvent.call 1,
                  ReqEvent.sleep 10, ReqEvent.call 2])) := by
  refine ⟨rfl, rfl, ?_, ?_, ?_, ?_, ?_⟩
  · rcases h0 : outcomes 0 with _ | ⟨s0, b0⟩
    · rcases h1 : outcomes 1 with _ | ⟨s1, b1⟩
      · rcases h2 : outcomes 2 with _ | ⟨s2, b2⟩
        · simp [make_request_loop, maxRetries, baseDelay, h0, h1, h2, callCount]
        · by_cases hs : s2 = 200 <;>
            simp [make_request_loop, maxRetries, baseDelay, h0, h1, h2, callCount, hs]
      · by_cases hs : s1 = 200 <;>
          simp [make_request_loop, maxRetries, baseDelay, h0, h1, callCount, hs]
    · by_cases hs : s0 = 200 <;>
        simp [make_request_loop, maxRetries, baseDelay, h0, callCount, hs]
  · intro b h0
    simp [make_request_loop, maxRetries, h0]
  · intro b h0
    simp [make_request_loop, maxRetries, h0]
  · intro s b h0 hs
    by_cases hs' : s = 429 <;> simp [make_request_loop, maxRetries, h0, hs, hs']
  · intro h0 h1 h2
    simp [make_request_loop, maxRetries, baseDelay, h0, h1, h2]

/-- C8 witness: a run whose three attempts all fail at network level
makes exactly the three calls with 5s and 10s backoffs, and an
all-429 run stops after one call. -/
theorem c8_request_executor_witness :
    make_request_loop (fun _ => (Outcome.exn : Outcome Nat)) maxRetries 0 =
      (none, [ReqEvent.call 0, ReqEvent.sleep 5, ReqEvent.call 1,
              ReqEvent.sleep 10, ReqEvent.call 2])
    ∧ make_request_loop (fun _ => (Outcome.resp 429 7 : Outcome Nat)) maxRetries 0 =
      (none, [ReqEvent.call 0]) :=
  ⟨(c8_request_executor (fun _ => (Outcome.exn : Outcome Nat))).2.2.2.2.2.2 rfl rfl rfl,
   (c8_request_executor (fun _ => (Outcome.resp 429 7 : Outcome Nat))).2.2.2.2.1 7 rfl⟩

/-! ### C10: referral-id selection -/

/-- C10: the first `get_ref_id` call draws in 1..100 and yields the
configured `REF_ID` when the draw is at most 70, else the hard-coded
string; the result is cached and every later call returns it unchanged;
whenever the configured value differs from the hard-coded one, draws
above 70 yield a referral id different from the configured one. -/
theorem c10_ref_id (refId : String) (draw draw2 : Nat) (h1 : 1 ≤ draw) (h2 : draw ≤ 100) :
    (draw ≤ 70 → (get_ref_id refId none draw).1 = refId)
    ∧ (70 < draw → (get_ref_id refId none draw).1 = "dIk9eL")
    ∧ (get_ref_id refId none draw).2 = some (get_ref_id refId none draw).1
    ∧ (get_ref_id refId (get_ref_id refId none draw).2 draw2).1 = (get_ref_id refId none draw).1
    ∧ (refId ≠ "dIk9eL" → 70 < draw → (get_ref_id refId none draw).1 ≠ refId) := by
  by_cases h : draw ≤ 70
  · refine ⟨fun _ => by simp [get_ref_id, h], fun hgt => absurd h (by omega), ?_, ?_, ?_⟩
    · simp [get_ref_id, h]
    · simp [get_ref_id, h]
    · intro _ hgt
      exact absurd h (by omega)
  · refine ⟨fun hle => absurd hle h, fun _ => by simp [get_ref_id, h], ?_, ?_, ?_⟩
    · simp [get_ref_id, h]
    · simp [get_ref_id, h]
    · intro hne _
      simp [get_ref_id, h]
      exact fun heq => hne heq.symm

/-- C10 witness: with a configured referral id different from the
hard-coded one, the draw 71 yields the hard-coded id (different from the
configured one) and the draw 5 yields the configured id; the cached value
is returned by the second call either way. -/
theorem c10_ref_id_witness :
    (get_ref_id "ABCDEF" none 5).1 = "ABCDEF"
    ∧ (get_ref_id "ABCDEF" none 71).1 = "dIk9eL"
    ∧ (get_ref_id "ABCDEF" (get_ref_id "ABCDEF" none 71).2 5).1 =
        (get_ref_id "ABCDEF" none 71).1 :=
  ⟨(c10_ref_id "ABCDEF" 5 1 (by decide) (by decide)).1 (by decide),
   (c10_ref_id "ABCDEF" 71 5 (by decide) (by decide)).2.1 (by decide),
   (c10_ref_id "ABCDEF" 71 5 (by decide) (by decide)).2.2.2.1⟩

/-! ### Structural lemmas about one orchestrator iteration -/

/-- The auth gate never touches the turbo flag. -/
theorem authGateState_activeTurbo (env : Env) (st : OrchState) :
    (authGateState env st).activeTurbo = st.activeTurbo := by
  unfold authGateState
  split
  · split <;> rfl
  · rfl

/-- The auth gate never touches the first-run flag. -/
theorem authGateState_isFirstRun (env : Env) (st : OrchState) :
    (authGateState env st).isFirstRun = st.isFirstRun := by
  unfold authGateState
  split
  · split <;> rfl
  · rfl

/-- The tap aftermath only updates the balance. -/
theorem tapAftermathState_activeTurbo (env : Env) (st : OrchState) (status : Bool)
    (tapData : TapData) :
    (tapAftermathState env st status tapData).activeTurbo = st.activeTurbo := by
  unfold tapAftermathState
  repeat' split
  all_goals rfl

/-- The tap aftermath only updates the balance. -/
theorem tapAftermathState_isFirstRun (env : Env) (st : OrchState) (status : Bool)
    (tapData : TapData) :
    (tapAftermathState env st status tapData).isFirstRun = st.isFirstRun := by
  unfold tapAftermathState
  repeat' split
  all_goals rfl

/-- Turbo activation only sets the turbo flag. -/
theorem turboActivationState_isFirstRun (env : Env) (st : OrchState) (bi : BoostsInfo) :
    (turboActivationState env st bi).isFirstRun = st.isFirstRun := by
  unfold turboActivationState
  repeat' split
  all_goals rfl

/-- With the turbo flag already set, the activation step does nothing. -/
theorem turboActivationState_of_active (env : Env) (st : OrchState) (bi : BoostsInfo)
    (h : st.activeTurbo = true) :
    turboActivationState env st bi = st := by
  unfold turboActivationState
  split
  · rename_i hc
    rw [h] at hc
    exact absurd hc.2 (by simp)
  · rfl

/-- With the turbo flag already set, the activation step makes no call. -/
theorem turboActivationActs_of_active (env : Env) (st : OrchState) (bi : BoostsInfo)
    (h : st.activeTurbo = true) :
    turboActivationActs env st bi = [] := by
  unfold turboActivationActs
  split
  · rename_i hc
    rw [h] at hc
    exact absurd hc.2 (by simp)
  · rfl

/-- The tap branch never changes the first-run flag. -/
theorem tapBranch_isFirstRun (env : Env) (st : OrchState) (gd : GameData) (bi : BoostsInfo) :
    (tapBranch env st gd bi).1.isFirstRun = st.isFirstRun := by
  simp only [tapBranch]
  rw [tapAftermathState_isFirstRun]
  split <;> simp [turboActivationState_isFirstRun]

/-- The zero-energy branch returns its input state unchanged. -/
theorem zeroEnergyBranch_fst (cfg : Cfg) (env : Env) (st : OrchState) (bi : BoostsInfo) :
    (zeroEnergyBranch cfg env st bi).1 = st := by
  simp only [zeroEnergyBranch]
  split <;> rfl

/-- The first-run flag survives a whole iteration unchanged: nothing in
`process_bot_logic` ever writes `self._is_first_run`. -/
theorem cycle_isFirstRun (cfg : Cfg) (env : Env) (st : OrchState) :
    (cycle cfg env st).1.isFirstRun = st.isFirstRun := by
  simp only [cycle]
  split
  · rcases hg : env.gameData with _ | gd
    · simp [authGateState_isFirstRun]
    · rcases hb : env.boostsInfo with _ | bi
      · simp [authGateState_isFirstRun]
      · simp only []
        split
        · simp [tapBranch_isFirstRun, authGateState_isFirstRun]
        · split
          · simp [zeroEnergyBranch_fst, authGateState_isFirstRun]
          · simp [authGateState_isFirstRun]
  · simp [authGateState_isFirstRun]

/-! ### Counting occurrences of a kind of call in one iteration's trace -/

/-- Turbo activation emits no action a predicate false on
`activateTurbo` and settle sleeps would count. -/
theorem countP_turboActivationActs (p : Action → Bool) (env : Env) (st : OrchState)
    (bi : BoostsInfo)
    (h1 : p Action.activateTurbo = false) (h2 : ∀ n, p (Action.sleepSettle n) = false) :
    (turboActivationActs env st bi).countP p = 0 := by
  unfold turboActivationActs
  repeat' split
  all_goals simp [List.countP_cons, List.countP_nil, h1, h2]

/-- The tap call step emits only `tap` or `turboTap`. -/
theorem countP_tapOutcomeActs (p : Action → Bool) (env : Env) (st1 : OrchState) (gd : GameData)
    (ht : ∀ n, p (Action.tap n) = false) (htt : p Action.turboTap = false) :
    (tapOutcome env st1 gd).2.2.countP p = 0 := by
  unfold tapOutcome
  split <;> simp [List.countP_cons, List.countP_nil, ht, htt]

/-- The tap aftermath emits only coarse sleeps, profile and game
fetches, settle sleeps and between-tap sleeps. -/
theorem countP_tapAftermathActs (p : Action → Bool) (env : Env) (status : Bool)
    (tapData : TapData)
    (hc : ∀ n, p (Action.sleepCoarse n) = false)
    (hp : p Action.fetchProfile = false)
    (hs : ∀ n, p (Action.sleepSettle n) = false)
    (hg : p Action.fetchGame = false)
    (hb : ∀ n, p (Action.sleepBetweenTap n) = false) :
    (tapAftermathActs env status tapData).countP p = 0 := by
  unfold tapAftermathActs
  repeat' split
  all_goals simp [List.countP_cons, List.countP_nil, hc, hp, hs, hg, hb]

/-- The whole tap branch emits none of the actions a predicate false on
its repertoire would count. -/
theorem countP_tapBranch (p : Action → Bool) (env : Env) (st : OrchState) (gd : GameData)
    (bi : BoostsInfo)
    (h1 : p Action.activateTurbo = false)
    (hs : ∀ n, p (Action.sleepSettle n) = false)
    (ht : ∀ n, p (Action.tap n) = false)
    (htt : p Action.turboTap = false)
    (hc : ∀ n, p (Action.sleepCoarse n) = false)
    (hp : p Action.fetchProfile = false)
    (hg : p Action.fetchGame = false)
    (hb : ∀ n, p (Action.sleepBetweenTap n) = false) :
    (tapBranch env st gd bi).2.countP p = 0 := by
  simp only [tapBranch, List.countP_append]
  rw [countP_turboActivationActs p env st bi h1 hs,
    countP_tapOutcomeActs p env _ gd ht htt,
    countP_tapAftermathActs p env _ _ hc hp hs hg hb]

/-- The upgrade pass emits only `levelUp` calls. -/
theorem countP_upgradePass (p : Action → Bool) (cfg : Cfg) (bi : BoostsInfo) (bal : Nat)
    (lv : Nat → Bool) (hl : ∀ n, p (Action.levelUp n) = false) :
    (upgradePass cfg bi bal lv).2.countP p = 0 := by
  simp only [upgradePass]
  repeat' split
  all_goals simp [List.countP_append, List.countP_cons, List.countP_nil, hl]

/-- The zero-energy branch emits only `levelUp` calls and one sleep. -/
theorem countP_zeroEnergyBranch (p : Action → Bool) (cfg : Cfg) (env : Env) (st : OrchState)
    (bi : BoostsInfo)
    (hl : ∀ n, p (Action.levelUp n) = false)
    (hs : ∀ n, p (Action.sleepSettle n) = false)
    (hc : ∀ n, p (Action.sleepCoarse n) = false) :
    (zeroEnergyBranch cfg env st bi).2.countP p = 0 := by
  simp only [zeroEnergyBranch]
  split <;>
    simp [List.countP_append, List.countP_cons, List.countP_nil, hs, hc,
      countP_upgradePass p cfg bi st.balance env.levelUpOk hl]

/-- Outside the auth gate, an iteration emits only game and boost
fetches, sleeps, tap calls, turbo activations, profile and game
refetches and `levelUp` calls: for any predicate false on all of those,
the whole-iteration count equals the auth-gate count. -/
theorem countP_cycle (p : Action → Bool) (cfg : Cfg) (env : Env) (st : OrchState)
    (hfg : p Action.fetchGame = false)
    (hfb : p Action.fetchBoosts = false)
    (hc : ∀ n, p (Action.sleepCoarse n) = false)
    (h1 : p Action.activateTurbo = false)
    (hs : ∀ n, p (Action.sleepSettle n) = false)
    (ht : ∀ n, p (Action.tap n) = false)
    (htt : p Action.turboTap = false)
    (hp : p Action.fetchProfile = false)
    (hb2 : ∀ n, p (Action.sleepBetweenTap n) = false)
    (hl : ∀ n, p (Action.levelUp n) = false) :
    (cycle cfg env st).2.countP p = (authGateActs env st).countP p := by
  simp only [cycle]
  split
  · rcases hgd : env.gameData with _ | gd
    · simp [List.countP_append, List.countP_cons, List.countP_nil, hfg, hc]
    · rcases hbi : env.boostsInfo with _ | bi
      · simp [List.countP_append, List.countP_cons, List.countP_nil, hfg, hfb, hc]
      · simp only []
        split
        · simp [List.countP_append, List.countP_cons, List.countP_nil, hfg, hfb,
            countP_tapBranch p env _ gd bi h1 hs ht htt hc hp hfg hb2]
        · split
          · simp [List.countP_append, List.countP_cons, List.countP_nil, hfg, hfb,
              countP_zeroEnergyBranch p cfg env _ bi hl hs hc]
          · simp [List.countP_append, List.countP_cons, List.countP_nil, hfg, hfb]
  · rfl

/-- The auth gate makes exactly one login call when it fires, none
otherwise. -/
theorem countP_isAuthCall_authGateActs (env : Env) (st : OrchState) :
    (authGateActs env st).countP isAuthCall =
      if st.tokenTime + 3600 ≤ env.now then 1 else 0 := by
  by_cases h : st.tokenTime + 3600 ≤ env.now
  · simp only [authGateActs, if_pos h]
    rcases env.authProfile with _ | p <;> split <;>
      simp [List.countP_append, List.countP_cons, List.countP_nil, isAuthCall]
  · simp [authGateActs, if_neg h, h]

/-- The auth gate claims the referral gift box exactly once when it
fires on a first-run session, never otherwise. -/
theorem countP_isReferralClaim_authGateActs (env : Env) (st : OrchState) :
    (authGateActs env st).countP isReferralClaim =
      if st.tokenTime + 3600 ≤ env.now ∧ st.isFirstRun = true then 1 else 0 := by
  by_cases h : st.tokenTime + 3600 ≤ env.now
  · simp only [authGateActs, if_pos h]
    by_cases hf : st.isFirstRun = true
    · rcases env.authProfile with _ | p <;>
        simp [List.countP_append, List.countP_cons, List.countP_nil, isReferralClaim, h, hf]
    · rcases env.authProfile with _ | p <;>
        simp [List.countP_append, List.countP_cons, List.countP_nil, isReferralClaim, h, hf]
  · simp [authGateActs, if_neg h, h]

/-- The auth gate emits none of the non-auth actions. -/
theorem countP_authGateActs_zero (p : Action → Bool) (env : Env) (st : OrchState)
    (ha : p Action.authenticate = false)
    (hr : p Action.claimReferral = false)
    (ho : p Action.sweepOfflineBonus = false)
    (hsi : p Action.sweepSignin = false)
    (hsq : p Action.sweepSquad = false)
    (hp : p Action.fetchProfile = false)
    (hac : p Action.activityCheck = false)
    (hst : p Action.sweepTasks = false)
    (hsm : p Action.sweepMissions = false) :
    (authGateActs env st).countP p = 0 := by
  unfold authGateActs
  repeat' split
  all_goals
    simp [List.countP_append, List.countP_cons, List.countP_nil,
      ha, hr, ho, hsi, hsq, hp, hac, hst, hsm]

/-! ### Per-claim concrete inputs -/

/-- Game snapshot with 5 of 1000 energy: above zero, below the default
10 percent threshold of 100. -/
def gdLow : GameData := { gdBase with coinPoolLeftCount := 5 }

/-- Game snapshot with 500 of 1000 energy: above the threshold. -/
def gdHigh : GameData := { gdBase with coinPoolLeftCount := 500 }

/-- Poll succeeds, energy strictly between zero and the threshold. -/
def envC1 : Env :=
  { envBase with
    gameData := some gdLow
    boostsInfo := some biBase }

/-- Poll succeeds with ample energy; the tap request itself gets no
response (HTTP 429), so `send_taps` yields `(False, dict())`. -/
def envC2 : Env :=
  { envBase with
    gameData := some gdHigh
    boostsInfo := some biBase
    tapResp := none }

/-- A tap response with a full payload whose `collectStatus` is false. -/
def respC3 : TapRespData :=
  { collectStatus := false, collectAmount := 0, currentAmount := some 10, totalAmount := some 10 }

/-- Poll succeeds with ample energy; the tap is rejected
(`collectStatus = false`) but carries a payload. -/
def envC3 : Env :=
  { envBase with
    gameData := some gdHigh
    boostsInfo := some biBase
    tapResp := some respC3 }

/-- Boost snapshot for the C4 counterexample: balance 1000 can afford
the 600 tap upgrade and — against the pre-upgrade balance only — the
900 energy upgrade. -/
def biC4 : BoostsInfo :=
  { biBase with
    currentAmount := 1000
    singleCoinLevel := 3
    singleCoinUpgradeCost := 600
    coinPoolTotalLevel := 2
    coinPoolTotalUpgradeCost := 900 }

/-- Zero energy with the C4 boost snapshot; both `level_up` calls
succeed. -/
def envC4 : Env :=
  { envBase with
    gameData := some gdBase
    boostsInfo := some biC4 }

/-- An environment whose auth gate fires (`now = 3600`, token epoch 0)
and whose profile fetch succeeds; energy is low so the cycle ends with
no tap. -/
def envC5auth : Env :=
  { envBase with
    now := 3600
    authProfile := some { currentAmount := 7, totalAmount := 7 }
    gameData := some gdLow
    boostsInfo := some biBase }

/-- A successful turbo-tap response. -/
def respTurboOk : TapRespData :=
  { collectStatus := true, collectAmount := 9, currentAmount := some 99, totalAmount := some 99 }

/-- A rejected turbo-tap response. -/
def respTurboFail : TapRespData :=
  { collectStatus := false, collectAmount := 0, currentAmount := none, totalAmount := none }

/-- Ample energy, pending turbo, successful turbo tap. -/
def envC6ok : Env :=
  { envBase with
    gameData := some gdHigh
    boostsInfo := some biBase
    specialBoxOk := true
    turboTapResp := some respTurboOk
    gameData2 := some gdBase }

/-- Ample energy, pending turbo, rejected turbo tap. -/
def envC6fail : Env :=
  { envBase with
    gameData := some gdHigh
    boostsInfo := some biBase
    specialBoxOk := true
    turboTapResp := some respTurboFail }

/-- State with the turbo flag pending. -/
def stTurbo : OrchState := { st0 with activeTurbo := true }

/-- Boost snapshot of the C7 scenario: balance 1000, tap upgrade
level 3 to 4 costs 500, the other two cost 5000. -/
def biC7 : BoostsInfo :=
  { biBase with
    currentAmount := 1000
    singleCoinLevel := 3
    singleCoinUpgradeCost := 500
    coinPoolTotalUpgradeCost := 5000
    coinPoolRecoveryUpgradeCost := 5000 }

/-- The C7 scenario: zero energy with the C7 boost snapshot. -/
def envC7 : Env :=
  { envBase with
    gameData := some gdBase
    boostsInfo := some biC7 }

/-- State of a first-run session at the loop entry. -/
def stC9 : OrchState := { st0 with isFirstRun := true }

/-- First auth-gated iteration of a first-run session (`now = 3600`). -/
def envC9a : Env :=
  { envBase with
    now := 3600
    authProfile := some { currentAmount := 7, totalAmount := 7 }
    gameData := some gdLow
    boostsInfo := some biBase }

/-- The next auth-gated iteration, one hour later. -/
def envC9b : Env := { envC9a with now := 7200 }

/-- Every iteration's trace begins with the auth-gate calls. -/
theorem cycle_trace_decomp (cfg : Cfg) (env : Env) (st : OrchState) :
    ∃ tail, (cycle cfg env st).2 = authGateActs env st ++ tail := by
  simp only [cycle]
  split
  · rcases hgd : env.gameData with _ | gd
    · simp only [hgd]
      exact ⟨_, rfl⟩
    · rcases hbi : env.boostsInfo with _ | bi
      · simp only [hgd, hbi]
        exact ⟨_, rfl⟩
      · simp only [hgd, hbi]
        split
        · rw [List.append_assoc]
          exact ⟨_, rfl⟩
        · split
          · rw [List.append_assoc]
            exact ⟨_, rfl⟩
          · exact ⟨_, rfl⟩
  · exact ⟨[], (List.append_nil _).symm⟩

/-! ### C5: the hourly token refresh -/

/-- C5: when the token is at least 3600s old at the top of an iteration
(`access_token_created_time = 0` on the very first one), the iteration
performs the login before any other call — its trace starts with
`authenticate`; when the token is younger, no login call occurs at all
during the iteration. -/
theorem c5_token_refresh (cfg : Cfg) (env : Env) (st : OrchState) :
    (st.tokenTime + 3600 ≤ env.now →
      ∃ rest, (cycle cfg env st).2 = Action.authenticate :: rest)
    ∧ (env.now < st.tokenTime + 3600 →
      (cycle cfg env st).2.countP isAuthCall = 0) := by
  constructor
  · intro hgate
    obtain ⟨tail, htail⟩ := cycle_trace_decomp cfg env st
    rw [htail]
    simp only [authGateActs, if_pos hgate, List.cons_append, List.append_assoc]
    exact ⟨_, rfl⟩
  · intro hfresh
    rw [countP_cycle isAuthCall cfg env st rfl rfl (fun n => rfl) rfl (fun n => rfl)
        (fun n => rfl) rfl rfl (fun n => rfl) (fun n => rfl),
      countP_isAuthCall_authGateActs]
    have h : ¬ (st.tokenTime + 3600 ≤ env.now) := by omega
    rw [if_neg h]

/-- C5 witness: at `now = 3600` with token epoch 0 (the first
iteration), the trace starts with the login; at `now = 0` with a fresh
token, no login call occurs. -/
theorem c5_token_refresh_witness :
    (∃ rest, (cycle cfgEx envC5auth st0).2 = Action.authenticate :: rest)
    ∧ (cycle cfgEx envC1 st0).2.countP isAuthCall = 0 :=
  ⟨(c5_token_refresh cfgEx envC5auth st0).1 (by decide),
   (c5_token_refresh cfgEx envC1 st0).2 (by decide)⟩

/-! ### C1: energy above zero but at or below the threshold -/

/-- C1 counterexample: with 5 of 1000 energy (threshold 100, no turbo
pending) the iteration's whole trace is the two polls — no tap call, but
also no coarse-backoff sleep at all, contradicting the claimed `WAIT`. -/
theorem c1_counterexample :
    (cycle cfgEx envC1 st0).2 = [Action.fetchGame, Action.fetchBoosts]
    ∧ (cycle cfgEx envC1 st0).2.countP isCoarseSleep = 0
    ∧ (cycle cfgEx envC1 st0).2.countP isTapCall = 0
    ∧ 0 < gdLow.coinPoolLeftCount
    ∧ gdLow.coinPoolLeftCount ≤ gdLow.coinPoolTotalCount * cfgEx.minAvailableEnergy / 100
    ∧ st0.activeTurbo = false := by
  decide

/-- C1 amended: in a poll cycle with `0 < availableEnergy ≤ minEnergy`
and a fresh token, the Orchestrator issues no tap call but does not
enter `WAIT`: the iteration ends right after the two poll calls, with no
sleep, and re-polls immediately. -/
theorem c1_amended (cfg : Cfg) (env : Env) (st : OrchState) (gd : GameData) (bi : BoostsInfo)
    (hfresh : env.now < st.tokenTime + 3600)
    (hg : env.gameData = some gd) (hb : env.boostsInfo = some bi)
    (hpos : 0 < gd.coinPoolLeftCount)
    (hle : gd.coinPoolLeftCount ≤ gd.coinPoolTotalCount * cfg.minAvailableEnergy / 100) :
    cycle cfg env st =
      ({ st with balance := bi.currentAmount }, [Action.fetchGame, Action.fetchBoosts]) := by
  have hgate : ¬ (st.tokenTime + 3600 ≤ env.now) := by omega
  simp only [cycle, authGateProceeds, authGateState, authGateActs, if_neg hgate, hg, hb]
  rw [if_neg (Nat.not_lt.mpr hle), if_neg (Nat.pos_iff_ne_zero.mp hpos)]
  simp

/-- C1 amended witness: the concrete low-energy iteration. -/
theorem c1_amended_witness :
    cycle cfgEx envC1 st0 =
      ({ st0 with balance := biBase.currentAmount },
       [Action.fetchGame, Action.fetchBoosts]) :=
  c1_amended cfgEx envC1 st0 gdLow biBase (by decide) rfl rfl (by decide) (by decide)

/-! ### C2: tap result with no payload -/

/-- C2: `send_taps` (and `send_taps_with_turbo`) can never return Python
`None` for `tap_data` — a missing response yields `(False, dict())` — so
the orchestrator's `tap_data is None` rate-limit branch is unreachable:
on the concrete no-payload tap the iteration just falls through with no
coarse-backoff sleep, against both the claim and the dead branch's own
intent. -/
theorem c2_dead_branch :
    (∀ resp : Option TapRespData, TapData.isNull (send_taps resp).2 = false)
    ∧ (∀ (ok : Bool) (resp : Option TapRespData),
        TapData.isNull (send_taps_with_turbo ok resp).2 = false)
    ∧ send_taps none = (false, TapData.emptyDict)
    ∧ (cycle cfgEx envC2 st0).2 = [Action.fetchGame, Action.fetchBoosts, Action.tap 35]
    ∧ (cycle cfgEx envC2 st0).2.countP isCoarseSleep = 0 := by
  refine ⟨?_, ?_, rfl, by decide, by decide⟩
  · intro resp
    rcases resp with _ | ⟨cs, ca, cur, tot⟩
    · rfl
    · rcases cur with _ | c <;> rcases tot with _ | t <;> rfl
  · intro ok resp
    rcases ok <;> rcases resp with _ | d <;> rfl

/-! ### C3: tap rejected with a payload present -/

/-- C3 counterexample: on a tap whose payload is present but whose
`collectStatus` is false, the iteration issues no profile fetch at all
(the claim says exactly one) — it just falls through after the tap. -/
theorem c3_counterexample :
    (cycle cfgEx envC3 st0).2 = [Action.fetchGame, Action.fetchBoosts, Action.tap 35]
    ∧ (cycle cfgEx envC3 st0).2.countP isProfileFetch = 0
    ∧ (cycle cfgEx envC3 st0).2.countP isCoarseSleep = 0
    ∧ envC3.tapResp = some respC3
    ∧ respC3.collectStatus = false := by
  decide

/-- C3 amended: on a tap result with payload present but
`collectStatus = false` (ample energy, no turbo, fresh token), the
Orchestrator issues no profile re-fetch and no long-backoff sleep: the
iteration ends right after the rejected tap call and re-polls. -/
theorem c3_amended (cfg : Cfg) (env : Env) (st : OrchState) (gd : GameData) (bi : BoostsInfo)
    (d : TapRespData) (ca ta : Nat)
    (hfresh : env.now < st.tokenTime + 3600)
    (hg : env.gameData = some gd) (hb : env.boostsInfo = some bi)
    (hgt : gd.coinPoolTotalCount * cfg.minAvailableEnergy / 100 < gd.coinPoolLeftCount)
    (hturbo : st.activeTurbo = false)
    (hcnt : bi.specialBoxLeftRecoveryCount = 0)
    (hresp : env.tapResp = some d)
    (hstatus : d.collectStatus = false)
    (hca : d.currentAmount = some ca) (hta : d.totalAmount = some ta) :
    cycle cfg env st =
      ({ st with balance := bi.currentAmount },
       [Action.fetchGame, Action.fetchBoosts,
        Action.tap (min gd.coinPoolLeftCount env.tapDraw)]) := by
  have hgate : ¬ (st.tokenTime + 3600 ≤ env.now) := by omega
  simp only [cycle, authGateProceeds, authGateState, authGateActs, if_neg hgate, hg, hb,
    if_pos hgt]
  simp only [tapBranch, turboActivationState, turboActivationActs, tapOutcome, send_taps,
    tapAftermathState, tapAftermathActs, hresp, hca, hta, hstatus, hcnt, hturbo]
  simp

/-- C3 amended witness: the concrete rejected-tap iteration. -/
theorem c3_amended_witness :
    cycle cfgEx envC3 st0 =
      ({ st0 with balance := biBase.currentAmount },
       [Action.fetchGame, Action.fetchBoosts, Action.tap 35]) :=
  c3_amended cfgEx envC3 st0 gdHigh biBase respC3 10 10 (by decide) rfl rfl (by decide)
    rfl rfl rfl rfl rfl rfl

/-! ### C4: boost-state caching across one zero-energy upgrade pass -/

/-- C4 counterexample: balance 1000, tap upgrade 600, energy upgrade
900 — after the successful tap upgrade the real balance (400) could not
afford the energy upgrade, yet the pass still issues `levelUp 3` against
the pre-upgrade snapshot, with no boost re-fetch between the two calls
(the only `fetchBoosts` in the trace is the initial poll). -/
theorem c4_counterexample :
    (cycle cfgEx envC4 st0).2 =
      [Action.fetchGame, Action.fetchBoosts, Action.levelUp 1, Action.levelUp 3,
       Action.sleepSettle 1]
    ∧ (cycle cfgEx envC4 st0).2.countP isBoostFetch = 1
    ∧ (cycle cfgEx envC4 st0).2.countP isProfileFetch = 0
    ∧ biC4.currentAmount - biC4.singleCoinUpgradeCost < biC4.coinPoolTotalUpgradeCost := by
  decide

/-- C4 amended: within one zero-energy pass the cached `BoostState` is
never invalidated: all three upgrade decisions read the single snapshot
and the balance fetched before the pass (no boost or profile re-fetch
occurs inside the pass; each `levelUp i` call happens exactly when the
pre-pass balance and snapshot satisfy its gate), and the snapshot is
only re-fetched at the top of the next iteration, after the single 1s
settle delay that follows a successful pass. -/
theorem c4_amended (cfg : Cfg) (env : Env) (st : OrchState) (gd : GameData) (bi : BoostsInfo)
    (hfresh : env.now < st.tokenTime + 3600)
    (hg : env.gameData = some gd) (hb : env.boostsInfo = some bi)
    (hzero : gd.coinPoolLeftCount = 0) :
    (cycle cfg env st).2 =
      Action.fetchGame :: Action.fetchBoosts ::
        ((upgradePass cfg bi bi.currentAmount env.levelUpOk).2 ++
         [if (upgradePass cfg bi bi.currentAmount env.levelUpOk).1 = true
          then Action.sleepSettle 1 else Action.sleepCoarse env.coarseDraw])
    ∧ (upgradePass cfg bi bi.currentAmount env.levelUpOk).2.countP isBoostFetch = 0
    ∧ (upgradePass cfg bi bi.currentAmount env.levelUpOk).2.countP isProfileFetch = 0
    ∧ (Action.levelUp 1 ∈ (upgradePass cfg bi bi.currentAmount env.levelUpOk).2 ↔
        bi.currentAmount ≥ bi.singleCoinUpgradeCost ∧
          bi.singleCoinLevel + 1 ≤ cfg.maxTapLevel)
    ∧ (Action.levelUp 3 ∈ (upgradePass cfg bi bi.currentAmount env.levelUpOk).2 ↔
        bi.currentAmount ≥ bi.coinPoolTotalUpgradeCost ∧
          bi.coinPoolTotalLevel + 1 ≤ cfg.maxEnergyLevel)
    ∧ (Action.levelUp 2 ∈ (upgradePass cfg bi bi.currentAmount env.levelUpOk).2 ↔
        bi.currentAmount ≥ bi.coinPoolRecoveryUpgradeCost ∧
          bi.coinPoolRecoveryLevel + 1 ≤ cfg.maxChargeLevel) := by
  have hgate : ¬ (st.tokenTime + 3600 ≤ env.now) := by omega
  refine ⟨?_, ?_, ?_, ?_, ?_, ?_⟩
  · simp only [cycle, authGateProceeds, authGateState, authGateActs, if_neg hgate, hg, hb,
      hzero]
    simp only [if_true]
    simp only [zeroEnergyBranch]
    rcases h : (upgradePass cfg bi bi.currentAmount env.levelUpOk).1 <;> simp [h]
  · exact countP_upgradePass isBoostFetch cfg bi _ _ (fun n => rfl)
  · exact countP_upgradePass isProfileFetch cfg bi _ _ (fun n => rfl)
  · by_cases h1 : bi.currentAmount ≥ bi.singleCoinUpgradeCost ∧
        bi.singleCoinLevel + 1 ≤ cfg.maxTapLevel <;>
      by_cases h2 : bi.currentAmount ≥ bi.coinPoolTotalUpgradeCost ∧
        bi.coinPoolTotalLevel + 1 ≤ cfg.maxEnergyLevel <;>
      by_cases h3 : bi.currentAmount ≥ bi.coinPoolRecoveryUpgradeCost ∧
        bi.coinPoolRecoveryLevel + 1 ≤ cfg.maxChargeLevel <;>
      simp [upgradePass, h1, h2, h3]
  · by_cases h1 : bi.currentAmount ≥ bi.singleCoinUpgradeCost ∧
        bi.singleCoinLevel + 1 ≤ cfg.maxTapLevel <;>
      by_cases h2 : bi.currentAmount ≥ bi.coinPoolTotalUpgradeCost ∧
        bi.coinPoolTotalLevel + 1 ≤ cfg.maxEnergyLevel <;>
      by_cases h3 : bi.currentAmount ≥ bi.coinPoolRecoveryUpgradeCost ∧
        bi.coinPoolRecoveryLevel + 1 ≤ cfg.maxChargeLevel <;>
      simp [upgradePass, h1, h2, h3]
  · by_cases h1 : bi.currentAmount ≥ bi.singleCoinUpgradeCost ∧
        bi.singleCoinLevel + 1 ≤ cfg.maxTapLevel <;>
      by_cases h2 : bi.currentAmount ≥ bi.coinPoolTotalUpgradeCost ∧
        bi.coinPoolTotalLevel + 1 ≤ cfg.maxEnergyLevel <;>
      by_cases h3 : bi.currentAmount ≥ bi.coinPoolRecoveryUpgradeCost ∧
        bi.coinPoolRecoveryLevel + 1 ≤ cfg.maxChargeLevel <;>
      simp [upgradePass, h1, h2, h3]

/-- C4 amended witness: the concrete two-upgrade pass. -/
theorem c4_amended_witness :
    (cycle cfgEx envC4 st0).2 =
      Action.fetchGame :: Action.fetchBoosts ::
        ((upgradePass cfgEx biC4 biC4.currentAmount envC4.levelUpOk).2 ++
         [if (upgradePass cfgEx biC4 biC4.currentAmount envC4.levelUpOk).1 = true
          then Action.sleepSettle 1 else Action.sleepCoarse envC4.coarseDraw])
    ∧ (Action.levelUp 3 ∈ (upgradePass cfgEx biC4 biC4.currentAmount envC4.levelUpOk).2 ↔
        biC4.currentAmount ≥ biC4.coinPoolTotalUpgradeCost ∧
          biC4.coinPoolTotalLevel + 1 ≤ cfgEx.maxEnergyLevel) :=
  ⟨(c4_amended cfgEx envC4 st0 gdBase biC4 (by decide) rfl rfl rfl).1,
   (c4_amended cfgEx envC4 st0 gdBase biC4 (by decide) rfl rfl rfl).2.2.2.2.1⟩

/-! ### C7: upgrade priority and the single-upgrade scenario -/

/-- C7: in one zero-energy decision pass the upgrades are attempted in
the fixed order tap (`boost_id=1`), energy capacity (`boost_id=3`),
energy regeneration (`boost_id=2`), each gated by balance against the
next cost and next level against the configured maximum; in the
concrete scenario (energy 0, balance 1000, tap 500 at level 3 of max
10, the other two at 5000) the iteration makes exactly one `levelUp`
call — for the tap resource — and re-polls after the 1s settle delay
with no coarse wait. -/
theorem c7_upgrade_priority (cfg : Cfg) (bi : BoostsInfo) (bal : Nat) (lv : Nat → Bool)
    (h1 : bal ≥ bi.singleCoinUpgradeCost ∧ bi.singleCoinLevel + 1 ≤ cfg.maxTapLevel)
    (h2 : bal ≥ bi.coinPoolTotalUpgradeCost ∧ bi.coinPoolTotalLevel + 1 ≤ cfg.maxEnergyLevel)
    (h3 : bal ≥ bi.coinPoolRecoveryUpgradeCost ∧
      bi.coinPoolRecoveryLevel + 1 ≤ cfg.maxChargeLevel) :
    (upgradePass cfg bi bal lv).2 = [Action.levelUp 1, Action.levelUp 3, Action.levelUp 2]
    ∧ (cycle cfgEx envC7 st0).2 =
        [Action.fetchGame, Action.fetchBoosts, Action.levelUp 1, Action.sleepSettle 1]
    ∧ (cycle cfgEx envC7 st0).2.countP isLevelUpCall = 1
    ∧ (cycle cfgEx envC7 st0).2.countP isCoarseSleep = 0 := by
  refine ⟨?_, by decide, by decide, by decide⟩
  simp [upgradePass, h1, h2, h3]

/-- C7 witness: with every gate satisfied the pass calls the three
upgrades in the fixed order. -/
theorem c7_upgrade_priority_witness :
    (upgradePass cfgEx biBase 100000 (fun _ => true)).2 =
      [Action.levelUp 1, Action.levelUp 3, Action.levelUp 2] :=
  (c7_upgrade_priority cfgEx biBase 100000 (fun _ => true)
    (by decide) (by decide) (by decide)).1

/-! ### C6: turbo-pending flag discipline -/

/-- With the turbo flag pending, the tap branch skips activation, taps
through the turbo sender, and the flag afterwards is the negation of the
turbo tap's `collectStatus`. -/
theorem tapBranch_turbo (env : Env) (st : OrchState) (gd : GameData) (bi : BoostsInfo)
    (h : st.activeTurbo = true) :
    (tapBranch env st gd bi).1.activeTurbo =
      !(send_taps_with_turbo env.specialBoxOk env.turboTapResp).1
    ∧ (tapBranch env st gd bi).2 =
        Action.turboTap ::
          tapAftermathActs env (send_taps_with_turbo env.specialBoxOk env.turboTapResp).1
            (send_taps_with_turbo env.specialBoxOk env.turboTapResp).2 := by
  have hact := turboActivationState_of_active env st bi h
  have hacts := turboActivationActs_of_active env st bi h
  simp only [tapBranch, hact, hacts, tapOutcome, h]
  rcases hs : (send_taps_with_turbo env.specialBoxOk env.turboTapResp).1 <;>
    simp [tapAftermathState_activeTurbo, h, hs]

/-- C6: while the turbo-pending flag is set, one iteration never calls a
fresh turbo-boost activation; the flag is cleared only when the turbo
tap itself reports `collectStatus = true` (and the turbo tap call is
then in the trace); when the turbo tap fails the flag stays set, so the
next iteration retries the tap rather than reactivating. -/
theorem c6_turbo_flag (cfg : Cfg) (env : Env) (st : OrchState) (h : st.activeTurbo = true) :
    (cycle cfg env st).2.countP isTurboActivation = 0
    ∧ ((cycle cfg env st).1.activeTurbo = false →
        (send_taps_with_turbo env.specialBoxOk env.turboTapResp).1 = true
        ∧ Action.turboTap ∈ (cycle cfg env st).2)
    ∧ ((send_taps_with_turbo env.specialBoxOk env.turboTapResp).1 = false →
        (cycle cfg env st).1.activeTurbo = true) := by
  have hauthz := countP_authGateActs_zero isTurboActivation env st
    rfl rfl rfl rfl rfl rfl rfl rfl rfl
  simp only [cycle]
  split
  · rcases hgd : env.gameData with _ | gd
    · simp only [hgd]
      refine ⟨?_, ?_, ?_⟩
      · simp [List.countP_append, List.countP_cons, List.countP_nil, hauthz,
          isTurboActivation]
      · intro hfin
        rw [authGateState_activeTurbo, h] at hfin
        exact absurd hfin (by simp)
      · intro _
        rw [authGateState_activeTurbo, h]
    · rcases hbi : env.boostsInfo with _ | bi
      · simp only [hgd, hbi]
        refine ⟨?_, ?_, ?_⟩
        · simp [List.countP_append, List.countP_cons, List.countP_nil, hauthz,
            isTurboActivation]
        · intro hfin
          rw [authGateState_activeTurbo, h] at hfin
          exact absurd hfin (by simp)
        · intro _
          rw [authGateState_activeTurbo, h]
      · simp only [hgd, hbi]
        have h2 : ({ authGateState env st with balance := bi.currentAmount } :
            OrchState).activeTurbo = true := by
          rw [show ({ authGateState env st with balance := bi.currentAmount } :
              OrchState).activeTurbo = (authGateState env st).activeTurbo from rfl,
            authGateState_activeTurbo, h]
        split
        · obtain ⟨hst, htr⟩ := tapBranch_turbo env
            { authGateState env st with balance := bi.currentAmount } gd bi h2
          refine ⟨?_, ?_, ?_⟩
          · rw [htr]
            simp [List.countP_append, List.countP_cons, List.countP_nil, hauthz,
              isTurboActivation,
              countP_tapAftermathActs isTurboActivation env _ _
                (fun n => rfl) rfl (fun n => rfl) rfl (fun n => rfl)]
          · intro hfin
            rw [hst] at hfin
            constructor
            · rcases hs : (send_taps_with_turbo env.specialBoxOk env.turboTapResp).1
              · rw [hs] at hfin
                exact absurd hfin (by simp)
              · rfl
            · rw [htr]
              simp
          · intro hs
            rw [hst, hs]
            rfl
        · split
          · refine ⟨?_, ?_, ?_⟩
            · simp [List.countP_append, List.countP_cons, List.countP_nil, hauthz,
                isTurboActivation,
                countP_zeroEnergyBranch isTurboActivation cfg env _ bi
                  (fun n => rfl) (fun n => rfl) (fun n => rfl)]
            · intro hfin
              rw [zeroEnergyBranch_fst, h2] at hfin
              exact absurd hfin (by simp)
            · intro _
              rw [zeroEnergyBranch_fst, h2]
          · refine ⟨?_, ?_, ?_⟩
            · simp [List.countP_append, List.countP_cons, List.countP_nil, hauthz,
                isTurboActivation]
            · intro hfin
              rw [h2] at hfin
              exact absurd hfin (by simp)
            · intro _
              exact h2
  · refine ⟨?_, ?_, ?_⟩
    · exact hauthz
    · intro hfin
      rw [authGateState_activeTurbo, h] at hfin
      exact absurd hfin (by simp)
    · intro _
      rw [authGateState_activeTurbo, h]

/-- C6 witness: a successful turbo tap clears the flag with no fresh
activation call; a rejected turbo tap leaves the flag set. -/
theorem c6_turbo_flag_witness :
    (cycle cfgEx envC6ok stTurbo).2.countP isTurboActivation = 0
    ∧ ((send_taps_with_turbo envC6ok.specialBoxOk envC6ok.turboTapResp).1 = true
       ∧ Action.turboTap ∈ (cycle cfgEx envC6ok stTurbo).2)
    ∧ (cycle cfgEx envC6fail stTurbo).1.activeTurbo = true :=
  ⟨(c6_turbo_flag cfgEx envC6ok stTurbo rfl).1,
   (c6_turbo_flag cfgEx envC6ok stTurbo rfl).2.1 (by decide),
   (c6_turbo_flag cfgEx envC6fail stTurbo rfl).2.2 (by decide)⟩

/-! ### C9: the referral claim across authentications -/

/-- C9 counterexample: a first-run session re-authenticates an hour
later (the first-run flag is never cleared in-process), and the second
auth-gated iteration claims the referral gift box again — the claim is
not one-time. -/
theorem c9_counterexample :
    (cycle cfgEx envC9a stC9).2.countP isReferralClaim = 1
    ∧ (cycle cfgEx envC9b (cycle cfgEx envC9a stC9).1).2.countP isReferralClaim = 1
    ∧ stC9.isFirstRun = true
    ∧ envC9b.now = envC9a.now + 3600 := by
  decide

/-- C9 amended: the referral claim is attempted exactly once per
iteration whose auth gate fires while the session's first-run flag is
set — that is, on every hourly re-authentication of a first-run session,
not only the first — and never otherwise; the iteration's outcome does
not depend on whether the claim succeeds (its failure is only logged);
and no iteration ever changes the first-run flag. -/
theorem c9_amended (cfg : Cfg) (env : Env) (st : OrchState) (b : Bool) :
    ((cycle cfg env st).2.countP isReferralClaim =
      if st.tokenTime + 3600 ≤ env.now ∧ st.isFirstRun = true then 1 else 0)
    ∧ cycle cfg { env with referralOk := b } st = cycle cfg env st
    ∧ (cycle cfg env st).1.isFirstRun = st.isFirstRun := by
  refine ⟨?_, rfl, cycle_isFirstRun cfg env st⟩
  rw [countP_cycle isReferralClaim cfg env st rfl rfl (fun n => rfl) rfl (fun n => rfl)
      (fun n => rfl) rfl rfl (fun n => rfl) (fun n => rfl),
    countP_isReferralClaim_authGateActs]

/-- C9 amended witness: the gate-fired first-run iteration claims once;
the fresh-token iteration claims nothing; the referral response is
irrelevant to the outcome. -/
theorem c9_amended_witness :
    (cycle cfgEx envC9a stC9).2.countP isReferralClaim =
      (if stC9.tokenTime + 3600 ≤ envC9a.now ∧ stC9.isFirstRun = true then 1 else 0)
    ∧ cycle cfgEx { envC9a with referralOk := false } stC9 = cycle cfgEx envC9a stC9
    ∧ (cycle cfgEx envC1 st0).2.countP isReferralClaim =
      (if st0.tokenTime + 3600 ≤ envC1.now ∧ st0.isFirstRun = true then 1 else 0) :=
  ⟨(c9_amended cfgEx envC9a stC9 true).1,
   (c9_amended cfgEx envC9a stC9 false).2.1,
   (c9_amended cfgEx envC1 st0 true).1⟩
